import Mathlib

/-!
A shallow embedding of `src/server.js`, the single source file of the Tamil
chat-bot backend: an Express application with Sequelize models `User` and
`ChatHistory`, session cookies, and JSON endpoints for registration, login,
profile, chat saving and chat history.  Request handlers are embedded as pure
functions from a server state and a parsed request body to an HTTP status, a
response body and the successor state.  The password-hashing primitive
(`bcrypt`) is kept opaque: handlers that use it are parameterised by the hash
and verify functions.
-/

namespace TamilChat

/-- A persisted row of the `User` model (src/server.js lines 21-44):
auto-incremented integer `id`, `username` (non-null, unique), `password`
(the bcrypt hash, non-null) and `email` (non-null, unique, isEmail-validated). -/
structure User where
  id : Nat
  username : String
  password : String
  email : String
deriving Repr, DecidableEq

/-- A persisted row of the `ChatHistory` model (src/server.js lines 46-64):
auto-incremented `id`, non-null `message` and `response` texts, `timestamp`
defaulting to the insertion time.  `userId` is the `UserId` foreign-key column
added by `ChatHistory.belongsTo(User)` (line 68); Sequelize leaves that column
nullable, hence the `Option`. -/
structure ChatRecord where
  id : Nat
  message : String
  response : String
  timestamp : Nat
  userId : Option Nat
deriving Repr, DecidableEq

/-- The relational store reached through `sequelize`, together with the
auto-increment counters and the database clock (`DataTypes.NOW`) that stamps
new chat rows. -/
structure ServerState where
  users : List User
  chats : List ChatRecord
  nextUserId : Nat
  nextChatId : Nat
  now : Nat
deriving Repr, DecidableEq

/-- The JSON bodies the handlers produce: `{error: msg}`,
`{success: true, redirect}`, the `/api/me` profile `{username, email}`,
`{success: true, chat}` from `/api/chat/save`, the record list from
`/api/chat/history`, and a static page (`res.sendFile`). -/
inductive Body where
  | err (msg : String)
  | successRedirect (redirect : String)
  | profile (username email : String)
  | chatSaved (chat : ChatRecord)
  | history (chats : List ChatRecord)
  | page (name : String)
deriving Repr, DecidableEq

/-- JavaScript falsiness of an optional string body field, as tested by
`!username`, `!message`, etc.: the field is absent (`undefined`) or the empty
string. -/
def isFalsy : Option String → Bool
  | none => true
  | some s => s.isEmpty

/-- Splitting a character list at every occurrence of a separator; the result
always holds at least one (possibly empty) piece. -/
def splitAtSep (sep : Char) : List Char → List (List Char)
  | [] => [[]]
  | c :: cs =>
    match splitAtSep sep cs with
    | [] => [[c]]
    | h :: t => if c == sep then [] :: h :: t else (c :: h) :: t

/-- Modelled from the spec: "email (unique, must be syntactically valid)".
The `isEmail` validator attached to the `User` model (src/server.js lines
40-42) lives in the external validator library, not in `src/`; it is modelled
as requiring exactly one `@` separating a non-empty local part from a
non-empty domain part. -/
def isEmail (s : String) : Bool :=
  match splitAtSep '@' s.toList with
  | [lp, dp] => !lp.isEmpty && !dp.isEmpty
  | _ => false

/-- Failures raised by the storage engine on insert: a model-level validation
failure (malformed email), a unique-constraint violation (username or email),
or a foreign-key violation. -/
inductive DbError where
  | validationError
  | uniqueViolation
  | fkViolation
deriving Repr, DecidableEq

/-- `User.create` (src/server.js lines 133-137) as executed by the store:
the model validation `isEmail` runs first, then the unique constraints on
`username` and `email`; on success the row is appended with the next
auto-increment id. -/
def userCreate (st : ServerState) (username email password : String) :
    Except DbError (User × ServerState) :=
  if !isEmail email then .error .validationError
  else if st.users.any (fun u => u.username == username) then .error .uniqueViolation
  else if st.users.any (fun u => u.email == email) then .error .uniqueViolation
  else
    let u : User := { id := st.nextUserId, username := username,
                      password := password, email := email }
    .ok (u, { st with users := st.users ++ [u], nextUserId := st.nextUserId + 1 })

/-- `ChatHistory.create` (src/server.js lines 203-207) as executed by the
store: the nullable `UserId` foreign key must, when present, reference an
existing user; the `timestamp` column defaults to the database clock. -/
def chatCreate (st : ServerState) (message resp : String) (uid : Option Nat) :
    Except DbError (ChatRecord × ServerState) :=
  if uid.all (fun u => st.users.any (fun x => x.id == u)) then
    let c : ChatRecord := { id := st.nextChatId, message := message,
                            response := resp, timestamp := st.now, userId := uid }
    .ok (c, { st with chats := st.chats ++ [c], nextChatId := st.nextChatId + 1 })
  else .error .fkViolation

/-- The `requireAuth` middleware (src/server.js lines 86-90).  Its body is
`next()` unconditionally — "Demo: allow all requests through" — so it admits
every request, whatever the session holds. -/
def requireAuthAllows (_sess : Option Nat) : Bool :=
  true

/-- The `POST /api/register` handler (src/server.js lines 114-147),
parameterised by the opaque `bcrypt.hash`.  Returns status, body, the new
store state and the new `req.session.userId`.  Any error thrown by the store
insert is caught by the surrounding try/catch and answered with 500. -/
def registerHandler (hash : String → String) (st : ServerState)
    (username email password : Option String) (sess : Option Nat) :
    Nat × Body × ServerState × Option Nat :=
  if isFalsy username || isFalsy email || isFalsy password then
    (400, .err "அனைத்து தகவல்களையும் நிரப்பவும்", st, sess)
  else
    let em := email.getD ""
    match st.users.find? (fun u => u.email == em) with
    | some _ => (400, .err "இந்த மின்னஞ்சல் ஏற்கனவே பயன்படுத்தப்பட்டுள்ளது", st, sess)
    | none =>
      match userCreate st (username.getD "") em (hash (password.getD "")) with
      | .error _ => (500, .err "பதிவுப் பிழை", st, sess)
      | .ok (u, st2) => (200, .successRedirect "/index.html", st2, some u.id)

/-- The `POST /api/login` handler (src/server.js lines 149-173), parameterised
by the opaque `bcrypt.compare` (supplied password first, stored hash second).
Returns status, body and the new `req.session.userId`; the store is never
written. -/
def loginHandler (verify : String → String → Bool) (st : ServerState)
    (email password : String) (sess : Option Nat) :
    Nat × Body × Option Nat :=
  match st.users.find? (fun u => u.email == email) with
  | none => (400, .err "தவறான மின்னஞ்சல் அல்லது கடவுச்சொல்", sess)
  | some user =>
    if verify password user.password then
      (200, .successRedirect "/index.html", some user.id)
    else
      (400, .err "தவறான மின்னஞ்சல் அல்லது கடவுச்சொல்", sess)

/-- The `GET /api/me` handler (src/server.js lines 186-194).
`User.findByPk(req.session.userId)` with an unset session resolves to null,
so both a missing session and an unknown id answer 404; otherwise only the
`username` and `email` attributes are selected and returned. -/
def meHandler (st : ServerState) (sess : Option Nat) : Nat × Body :=
  match sess.bind (fun uid => st.users.find? (fun u => u.id == uid)) with
  | none => (404, .err "User not found")
  | some u => (200, .profile u.username u.email)

/-- The `POST /api/chat/save` handler (src/server.js lines 197-213): falsy
`message` or `response` answers 400 without touching the store; otherwise the
row is inserted with `UserId := req.session.userId` (null when no session) and
echoed back; a store failure is caught and answered with 500. -/
def chatSaveHandler (st : ServerState) (message resp : Option String)
    (sess : Option Nat) : Nat × Body × ServerState :=
  if isFalsy message || isFalsy resp then
    (400, .err "செய்தி மற்றும் பதில் தேவை", st)
  else
    match chatCreate st (message.getD "") (resp.getD "") sess with
    | .ok (c, st2) => (200, .chatSaved c, st2)
    | .error _ => (500, .err "செய்தியை சேமிக்க இயலவில்லை", st)

/-- Descending-timestamp comparison used to embed
`order: [['timestamp', 'DESC']]`. -/
def tsDesc (a b : ChatRecord) : Prop :=
  b.timestamp ≤ a.timestamp

instance : DecidableRel tsDesc := fun a b => Nat.decLe b.timestamp a.timestamp

instance : IsTotal ChatRecord tsDesc := ⟨fun a b => Nat.le_total b.timestamp a.timestamp⟩

instance : IsTrans ChatRecord tsDesc := ⟨fun _ _ _ h1 h2 => Nat.le_trans h2 h1⟩

/-- The `GET /api/chat/history` handler (src/server.js lines 216-228):
`findAll` filtered on `UserId = req.session.userId`, ordered by `timestamp`
descending and limited to 50.  With no session the where-clause carries an
undefined value, which the store rejects, and the catch answers 500. -/
def chatHistoryHandler (st : ServerState) (sess : Option Nat) : Nat × Body :=
  match sess with
  | none => (500, .err "சரித்திரத்தைப் பெறுவதில் பிழை")
  | some uid =>
    (200, .history
      ((List.insertionSort tsDesc
        (st.chats.filter (fun c => c.userId == some uid))).take 50))

/-- The record list produced by `GET /api/chat/history` for session user
`uid`: the filter, order and limit of src/server.js lines 218-222. -/
def listRecent (st : ServerState) (uid : Nat) : List ChatRecord :=
  (List.insertionSort tsDesc (st.chats.filter (fun c => c.userId == some uid))).take 50

/-- The `GET /index.html` route (src/server.js lines 231-233): the
`requireAuth` middleware decides whether the handler runs (`none` would mean
the request never reaches it); the handler serves the static page. -/
def serveIndexHtml (sess : Option Nat) : Option (Nat × Body) :=
  if requireAuthAllows sess then some (200, .page "index.html") else none

/-- Modelled from the spec: the fixed session time-to-live.  The Session
Manager itself is the external express-session middleware, absent from
`src/`; the TTL value is the repository's own configuration,
`cookie.maxAge = 86400000` milliseconds (src/server.js line 82). -/
def sessionTTL : Nat := 86400000

/-- Modelled from the spec: one entry of the Session Manager's table, the
"ephemeral mapping from an opaque token (delivered as a cookie) to a user
identifier" together with its expiry instant. -/
structure SessionEntry where
  token : Nat
  userId : Nat
  expiry : Nat
deriving Repr, DecidableEq

/-- Modelled from the spec: `create(userId) -> token` "generates a new opaque
token, records its association with userId and an expiry timestamp
(now + 1 day)".  The fresh token is supplied by the caller; the new entry
shadows any older entry with the same token. -/
def sessionCreate (ss : List SessionEntry) (tok uid now : Nat) : List SessionEntry :=
  { token := tok, userId := uid, expiry := now + sessionTTL } :: ss

/-- Modelled from the spec: `resolve(token) -> userId | Unauthenticated`
"looks up the token; returns Unauthenticated if absent or expired" — expiry
is checked lazily at resolve time; `none` is Unauthenticated. -/
def sessionResolve (ss : List SessionEntry) (tok now : Nat) : Option Nat :=
  match ss.find? (fun e => e.token == tok) with
  | some e => if now < e.expiry then some e.userId else none
  | none => none

/-- Modelled from the spec: `destroy(token)` "removes the association;
idempotent (destroying a non-existent token is not an error)". -/
def sessionDestroy (ss : List SessionEntry) (tok : Nat) : List SessionEntry :=
  ss.filter (fun e => e.token != tok)

/-- Rewriting every stored password hash of a store; used to state that a
response does not depend on the hashes. -/
def scrubPasswords (f : String → String) (st : ServerState) : ServerState :=
  { st with users := st.users.map (fun u => { u with password := f u.password }) }

/-! Concrete instances used by the witnesses. -/

/-- A concrete stand-in for the opaque `bcrypt.hash`. -/
def hashEx (p : String) : String := p ++ "#h"

/-- A concrete stand-in for the opaque `bcrypt.compare`: the supplied password
matches exactly the hash `hashEx` would have produced from it. -/
def verifyEx (p h : String) : Bool := (p ++ "#h") == h

/-- The empty store. -/
def st0 : ServerState :=
  { users := [], chats := [], nextUserId := 1, nextChatId := 1, now := 100 }

/-- A store holding the single registered user alice. -/
def stAlice : ServerState :=
  { users := [{ id := 1, username := "alice", password := "pw#h", email := "a@b.c" }],
    chats := [], nextUserId := 2, nextChatId := 1, now := 100 }

/-- A store with two users and three chat rows, one of them bob's. -/
def stHist : ServerState :=
  { users := [{ id := 1, username := "alice", password := "pw#h", email := "a@b.c" },
              { id := 2, username := "bob", password := "qw#h", email := "b@b.c" }],
    chats := [{ id := 1, message := "hi", response := "hello", timestamp := 100, userId := some 1 },
              { id := 2, message := "spy", response := "nope", timestamp := 150, userId := some 2 },
              { id := 3, message := "m2", response := "r2", timestamp := 200, userId := some 1 }],
    nextUserId := 3, nextChatId := 4, now := 300 }

/-! Helper lemmas shared between claims. -/

/-- Searching users by id commutes with rewriting every password: the search
predicate never looks at the password field. -/
theorem find?_id_scrub (f : String → String) (l : List User) (uid : Nat) :
    (l.map (fun u => { u with password := f u.password })).find? (fun x => x.id == uid) =
      (l.find? (fun x => x.id == uid)).map (fun u => { u with password := f u.password }) := by
  induction l with
  | nil => rfl
  | cons a t ih =>
    by_cases h : (a.id == uid) = true
    · simp [List.find?, h]
    · simp [List.find?, h, ih]

/-- A list extended with a row matching the predicate always yields a find. -/
theorem find?_append_singleton_isSome (l : List User) (u : User) (p : User → Bool)
    (hp : p u = true) : ∃ v, (l ++ [u]).find? p = some v := by
  induction l with
  | nil => exact ⟨u, by simp [List.find?, hp]⟩
  | cons a t ih =>
    by_cases h : p a = true
    · exact ⟨a, by simp [List.find?, h]⟩
    · obtain ⟨v, hv⟩ := ih
      exact ⟨v, by simp [List.find?, h, hv]⟩

/-! The claims. -/

/-- C1: the spec gates GET /index.html, GET /api/me, POST /api/chat/save and
GET /api/chat/history behind an active session, but the `requireAuth`
middleware of src/server.js lines 86-90 is a no-op: a request carrying no
session is still admitted, GET /index.html serves the protected page, and a
POST /api/chat/save without any session succeeds with status 200 — the
protected resources are served, contradicting the claimed Unauthenticated
behaviour. -/
theorem c1_unauthenticated_request_is_served :
    requireAuthAllows none = true ∧
    serveIndexHtml none = some (200, Body.page "index.html") ∧
    (chatSaveHandler stAlice (some "hi") (some "hello") none).1 = 200 := by
  decide

/-- C2: a login whose email matches no stored user and a login whose email
matches a user but whose password fails hash verification are answered
identically: both status 400, the same error body, and the session left
unchanged — the two failure causes cannot be told apart. -/
theorem c2_login_failures_indistinguishable
    (verify : String → String → Bool) (st : ServerState)
    (e1 p1 e2 p2 : String) (s1 s2 : Option Nat) (u : User)
    (h1 : st.users.find? (fun x => x.email == e1) = none)
    (h2 : st.users.find? (fun x => x.email == e2) = some u)
    (h3 : verify p2 u.password = false) :
    loginHandler verify st e1 p1 s1 =
      (400, Body.err "தவறான மின்னஞ்சல் அல்லது கடவுச்சொல்", s1) ∧
    loginHandler verify st e2 p2 s2 =
      (400, Body.err "தவறான மின்னஞ்சல் அல்லது கடவுச்சொல்", s2) ∧
    (loginHandler verify st e1 p1 s1).1 = (loginHandler verify st e2 p2 s2).1 ∧
    (loginHandler verify st e1 p1 s1).2.1 = (loginHandler verify st e2 p2 s2).2.1 := by
  simp [loginHandler, h1, h2, h3]

/-- Witness for C2 at a concrete store: unknown email and wrong password for
alice's email produce the same 400 response. -/
theorem c2_login_failures_indistinguishable_witness :
    loginHandler verifyEx stAlice "zz@q.w" "pw" none =
      (400, Body.err "தவறான மின்னஞ்சல் அல்லது கடவுச்சொல்", none) ∧
    loginHandler verifyEx stAlice "a@b.c" "wrong" none =
      (400, Body.err "தவறான மின்னஞ்சல் அல்லது கடவுச்சொல்", none) :=
  ⟨(c2_login_failures_indistinguishable verifyEx stAlice "zz@q.w" "pw" "a@b.c" "wrong"
      none none ⟨1, "alice", "pw#h", "a@b.c"⟩ (by decide) (by decide) (by decide)).1,
   (c2_login_failures_indistinguishable verifyEx stAlice "zz@q.w" "pw" "a@b.c" "wrong"
      none none ⟨1, "alice", "pw#h", "a@b.c"⟩ (by decide) (by decide) (by decide)).2.1⟩

/-- C7: the spec's invariant — every persisted ChatRecord has a required,
non-null owning-user identifier — is violated: a chat-save request with no
authenticated session succeeds (the disabled middleware admits it, and the
`UserId` column Sequelize adds for `belongsTo` is nullable), persisting a
record whose owning-user identifier is null. -/
theorem c7_chat_record_persisted_without_owner :
    (chatSaveHandler stAlice (some "hi") (some "hello") none).1 = 200 ∧
    (chatSaveHandler stAlice (some "hi") (some "hello") none).2.2.chats =
      [{ id := 1, message := "hi", response := "hello", timestamp := 100, userId := none }] := by
  decide

/-- C8: a session entry created at instant `now` resolves to its user at every
instant strictly before `now + sessionTTL`, resolves to Unauthenticated at or
after that instant, and a destroyed or absent token always resolves to
Unauthenticated. -/
theorem c8_session_valid_exactly_ttl (ss : List SessionEntry) (tok uid now t : Nat) :
    (t < now + sessionTTL →
      sessionResolve (sessionCreate ss tok uid now) tok t = some uid) ∧
    (now + sessionTTL ≤ t →
      sessionResolve (sessionCreate ss tok uid now) tok t = none) ∧
    sessionResolve (sessionDestroy (sessionCreate ss tok uid now) tok) tok t = none ∧
    sessionResolve [] tok t = none := by
  refine ⟨fun h => ?_, fun h => ?_, ?_, ?_⟩
  · simp [sessionResolve, sessionCreate, List.find?, h]
  · simp [sessionResolve, sessionCreate, List.find?, Nat.not_lt.mpr h]
  · have hnone : (sessionDestroy (sessionCreate ss tok uid now) tok).find?
        (fun e => e.token == tok) = none := by
      rw [List.find?_eq_none]
      intro e he
      have := (List.mem_filter.mp he).2
      simpa using this
    simp [sessionResolve, hnone]
  · simp [sessionResolve]

/-- Witness for C8: token 7 created at instant 1000 resolves one millisecond
before expiry and no longer at expiry. -/
theorem c8_session_valid_exactly_ttl_witness :
    sessionResolve (sessionCreate [] 7 1 1000) 7 (1000 + sessionTTL - 1) = some 1 ∧
    sessionResolve (sessionCreate [] 7 1 1000) 7 (1000 + sessionTTL) = none :=
  ⟨(c8_session_valid_exactly_ttl [] 7 1 1000 (1000 + sessionTTL - 1)).1 (by decide),
   (c8_session_valid_exactly_ttl [] 7 1 1000 (1000 + sessionTTL)).2.1 (by decide)⟩

/-- C9: GET /api/me for a session resolving to user id `uid` answers 200 with
exactly the stored username and email when such a user exists, 404 when none
does; and the stored password hashes never influence the response — rewriting
every hash in the store leaves the response unchanged. -/
theorem c9_me_profile_never_hash (st : ServerState) (uid : Nat) :
    (∀ u, st.users.find? (fun x => x.id == uid) = some u →
      meHandler st (some uid) = (200, Body.profile u.username u.email)) ∧
    (st.users.find? (fun x => x.id == uid) = none →
      meHandler st (some uid) = (404, Body.err "User not found")) ∧
    (∀ f, meHandler (scrubPasswords f st) (some uid) = meHandler st (some uid)) := by
  refine ⟨fun u h => ?_, fun h => ?_, fun f => ?_⟩
  · simp [meHandler, h]
  · simp [meHandler, h]
  · simp only [meHandler, scrubPasswords]
    simp only [Option.bind_eq_bind, Option.some_bind]
    rw [find?_id_scrub]
    cases st.users.find? (fun x => x.id == uid) <;> simp

/-- Witness for C9: alice's profile is returned for id 1, 404 for the unknown
id 9, and scrubbing the stored hash changes nothing. -/
theorem c9_me_profile_never_hash_witness :
    meHandler stAlice (some 1) = (200, Body.profile "alice" "a@b.c") ∧
    meHandler stAlice (some 9) = (404, Body.err "User not found") ∧
    meHandler (scrubPasswords (fun _ => "X") stAlice) (some 1) = meHandler stAlice (some 1) :=
  ⟨(c9_me_profile_never_hash stAlice 1).1 ⟨1, "alice", "pw#h", "a@b.c"⟩ (by decide),
   (c9_me_profile_never_hash stAlice 9).2.1 (by decide),
   (c9_me_profile_never_hash stAlice 1).2.2 (fun _ => "X")⟩

/-- C4: the history listed for session user `u` contains only records whose
owning-user identifier equals `u` — never a record saved for another user —
is sorted by timestamp descending (newest first), holds at most 50 records,
and is exactly what GET /api/chat/history answers with status 200. -/
theorem c4_listRecent_own_sorted_limited (st : ServerState) (u : Nat) :
    (∀ c ∈ listRecent st u, c.userId = some u) ∧
    (listRecent st u).Sorted tsDesc ∧
    (listRecent st u).length ≤ 50 ∧
    chatHistoryHandler st (some u) = (200, Body.history (listRecent st u)) := by
  refine ⟨fun c hc => ?_, ?_, ?_, rfl⟩
  · simp only [listRecent] at hc
    have h1 : c ∈ List.insertionSort tsDesc (st.chats.filter (fun x => x.userId == some u)) :=
      List.mem_of_mem_take hc
    have h2 : c ∈ st.chats.filter (fun x => x.userId == some u) :=
      (List.perm_insertionSort tsDesc _).mem_iff.mp h1
    simpa using (List.mem_filter.mp h2).2
  · simp only [listRecent]
    exact List.Pairwise.sublist (List.take_sublist _ _) (List.sorted_insertionSort tsDesc _)
  · simp only [listRecent]
    exact List.length_take_le _ _

/-- Witness for C4 on a concrete store with records of two users: alice's
history holds exactly her two records, newest first. -/
theorem c4_listRecent_own_sorted_limited_witness :
    ((∀ c ∈ listRecent stHist 1, c.userId = some 1) ∧
     (listRecent stHist 1).Sorted tsDesc ∧
     (listRecent stHist 1).length ≤ 50 ∧
     chatHistoryHandler stHist (some 1) = (200, Body.history (listRecent stHist 1))) ∧
    listRecent stHist 1 =
      [{ id := 3, message := "m2", response := "r2", timestamp := 200, userId := some 1 },
       { id := 1, message := "hi", response := "hello", timestamp := 100, userId := some 1 }] :=
  ⟨c4_listRecent_own_sorted_limited stHist 1, by decide⟩

/-- C5: a chat-save request with a falsy (absent or empty) message or response
is answered 400 and leaves the store unchanged — no partial record is
persisted; otherwise (the session, when set, naming an existing user) a record
stamped with the server clock is appended to the store and echoed back with
status 200. -/
theorem c5_chat_save_validation_and_persist (st : ServerState)
    (message resp : Option String) (sess : Option Nat)
    (hsess : sess.all (fun u => st.users.any (fun x => x.id == u)) = true) :
    ((isFalsy message || isFalsy resp) = true →
      chatSaveHandler st message resp sess =
        (400, Body.err "செய்தி மற்றும் பதில் தேவை", st)) ∧
    ((isFalsy message || isFalsy resp) = false →
      chatSaveHandler st message resp sess =
        (200,
         Body.chatSaved
           { id := st.nextChatId, message := message.getD "", response := resp.getD "",
             timestamp := st.now, userId := sess },
         { st with
           chats := st.chats ++
             [{ id := st.nextChatId, message := message.getD "", response := resp.getD "",
                timestamp := st.now, userId := sess }],
           nextChatId := st.nextChatId + 1 })) := by
  constructor
  · intro h
    simp [chatSaveHandler, h]
  · intro h
    simp [chatSaveHandler, chatCreate, h, hsess]

/-- Witness for C5: an empty message is rejected with the store untouched; a
well-formed save appends one timestamped record owned by alice. -/
theorem c5_chat_save_validation_and_persist_witness :
    chatSaveHandler stAlice (some "") (some "hello") (some 1) =
      (400, Body.err "செய்தி மற்றும் பதில் தேவை", stAlice) ∧
    chatSaveHandler stAlice (some "hi") (some "hello") (some 1) =
      (200,
       Body.chatSaved
         { id := 1, message := "hi", response := "hello", timestamp := 100,
           userId := some 1 },
       { stAlice with
         chats := [{ id := 1, message := "hi", response := "hello", timestamp := 100,
                     userId := some 1 }],
         nextChatId := 2 }) :=
  ⟨(c5_chat_save_validation_and_persist stAlice (some "") (some "hello") (some 1)
      (by decide)).1 (by decide),
   (c5_chat_save_validation_and_persist stAlice (some "hi") (some "hello") (some 1)
      (by decide)).2 (by decide)⟩

/-- C3: if a register request succeeds — returning 200 with the resulting
store `st1` — then a second register request with the same email (and any
present username and password) is answered 400 with the duplicate-email error,
and the store, in particular the first user's row, is left exactly `st1`. -/
theorem c3_second_register_same_email_rejected
    (hash : String → String) (st : ServerState)
    (un1 em pw1 un2 pw2 : Option String) (s1 s2 : Option Nat)
    (b : Body) (st1 : ServerState) (snew : Option Nat)
    (hok : registerHandler hash st un1 em pw1 s1 = (200, b, st1, snew))
    (hun : isFalsy un2 = false) (hpw : isFalsy pw2 = false) :
    registerHandler hash st1 un2 em pw2 s2 =
      (400, Body.err "இந்த மின்னஞ்சல் ஏற்கனவே பயன்படுத்தப்பட்டுள்ளது", st1, s2) := by
  unfold registerHandler at hok
  by_cases hf : (isFalsy un1 || isFalsy em || isFalsy pw1) = true
  · rw [if_pos hf] at hok
    simp at hok
  · have hf' := hf
    simp only [Bool.or_eq_true, not_or, Bool.not_eq_true] at hf'
    rw [if_neg hf] at hok
    cases hfind : st.users.find? (fun u => u.email == em.getD "") with
    | some u =>
      simp only [hfind] at hok
      simp at hok
    | none =>
      simp only [hfind] at hok
      cases hcr : userCreate st (un1.getD "") (em.getD "") (hash (pw1.getD "")) with
      | error e =>
        simp only [hcr] at hok
        simp at hok
      | ok p =>
        obtain ⟨nu, nst⟩ := p
        simp only [hcr] at hok
        have hst1 : nst = st1 := by
          have h2 := congrArg (fun q => q.2.2.1) hok
          simpa using h2
        unfold userCreate at hcr
        split at hcr
        · simp at hcr
        · split at hcr
          · simp at hcr
          · split at hcr
            · simp at hcr
            · simp only [Except.ok.injEq, Prod.mk.injEq] at hcr
              obtain ⟨hu, hst⟩ := hcr
              subst hst1
              subst hst
              subst hu
              have hc2 : (isFalsy un2 || isFalsy em || isFalsy pw2) = false := by
                simp [hun, hf'.1.2, hpw]
              obtain ⟨v, hv⟩ := find?_append_singleton_isSome st.users
                { id := st.nextUserId, username := un1.getD "",
                  password := hash (pw1.getD ""), email := em.getD "" }
                (fun x => x.email == em.getD "") (by simp)
              simp [registerHandler, hc2, hv]

/-- Witness for C3: registering alice succeeds on the empty store; bob then
registering with alice's email is rejected with the duplicate-email error and
alice's row is untouched. -/
theorem c3_second_register_same_email_rejected_witness :
    registerHandler hashEx stAlice (some "bob") (some "a@b.c") (some "pw2") none =
      (400, Body.err "இந்த மின்னஞ்சல் ஏற்கனவே பயன்படுத்தப்பட்டுள்ளது", stAlice, none) :=
  c3_second_register_same_email_rejected hashEx st0
    (some "alice") (some "a@b.c") (some "pw") (some "bob") (some "pw2") none none
    (Body.successRedirect "/index.html") stAlice (some 1)
    (by decide) (by decide) (by decide)

/-- C6 is violated at this input: a register request with all three fields
present but the malformed email "notanemail" is answered 500 — the validation
failure raised at the insert is caught by the generic catch of src/server.js
lines 143-146 — not the claimed 400; no user is persisted. -/
theorem c6_malformed_email_answered_500_not_400 :
    (registerHandler hashEx st0 (some "bob") (some "notanemail") (some "pw") none).1 = 500 ∧
    ¬(registerHandler hashEx st0 (some "bob") (some "notanemail") (some "pw") none).1 = 400 ∧
    (registerHandler hashEx st0 (some "bob") (some "notanemail") (some "pw") none).2.2.1 = st0 := by
  decide

/-- C6 amended: a register request with a missing (falsy) field is answered
400 with the fill-all-fields error and persists nothing; a request with all
fields present but a malformed email (one not already stored) also persists
nothing, but is answered with the generic 500 store-failure response rather
than 400. -/
theorem c6_register_validation_amended
    (hash : String → String) (st : ServerState)
    (un em pw : Option String) (sess : Option Nat) :
    ((isFalsy un || isFalsy em || isFalsy pw) = true →
      registerHandler hash st un em pw sess =
        (400, Body.err "அனைத்து தகவல்களையும் நிரப்பவும்", st, sess)) ∧
    ((isFalsy un || isFalsy em || isFalsy pw) = false →
      st.users.find? (fun u => u.email == em.getD "") = none →
      isEmail (em.getD "") = false →
      registerHandler hash st un em pw sess =
        (500, Body.err "பதிவுப் பிழை", st, sess)) := by
  constructor
  · intro h
    simp [registerHandler, h]
  · intro h hfresh hmal
    simp [registerHandler, userCreate, h, hfresh, hmal]

/-- Witness for C6 amended: a missing username is answered 400 with the store
untouched; a present but malformed email is answered 500 with the store
untouched. -/
theorem c6_register_validation_amended_witness :
    registerHandler hashEx st0 none (some "a@b.c") (some "pw") none =
      (400, Body.err "அனைத்து தகவல்களையும் நிரப்பவும்", st0, none) ∧
    registerHandler hashEx st0 (some "bob") (some "nomail") (some "pw") none =
      (500, Body.err "பதிவுப் பிழை", st0, none) :=
  ⟨(c6_register_validation_amended hashEx st0 none (some "a@b.c") (some "pw") none).1
     (by decide),
   (c6_register_validation_amended hashEx st0 (some "bob") (some "nomail") (some "pw") none).2
     (by decide) (by decide) (by decide)⟩

/-- C10: a register request whose email is fresh but whose username collides
with an existing user's passes the handler's email-only pre-check, is rejected
by the database-level username uniqueness constraint at the insert, and is
answered with the generic 500 registration-failure response — not a 400
duplicate or validation error — leaving the store unchanged. -/
theorem c10_duplicate_username_answers_500
    (hash : String → String) (st : ServerState)
    (un em pw : Option String) (sess : Option Nat)
    (hun : isFalsy un = false) (hem : isFalsy em = false) (hpw : isFalsy pw = false)
    (hfresh : st.users.find? (fun u => u.email == em.getD "") = none)
    (hvalid : isEmail (em.getD "") = true)
    (hdup : st.users.any (fun u => u.username == un.getD "") = true) :
    registerHandler hash st un em pw sess = (500, Body.err "பதிவுப் பிழை", st, sess) := by
  simp [registerHandler, userCreate, hun, hem, hpw, hfresh, hvalid, hdup]

/-- Witness for C10: registering the taken username alice under a fresh,
well-formed email is answered 500 and stores nothing. -/
theorem c10_duplicate_username_answers_500_witness :
    registerHandler hashEx stAlice (some "alice") (some "x@y.z") (some "pw") none =
      (500, Body.err "பதிவுப் பிழை", stAlice, none) :=
  c10_duplicate_username_answers_500 hashEx stAlice (some "alice") (some "x@y.z") (some "pw")
    none (by decide) (by decide) (by decide) (by decide) (by decide) (by decide)

end TamilChat
